import Mathlib

/-!
# Verification of the MCP SSE transport (`mcp_client/transport.py`)

Shallow embedding of the `MCPTransport` class: a client-side transport that
submits JSON-RPC requests over HTTP POST and receives correlated responses
over a server-sent-event (SSE) stream.  Python dictionaries parsed from JSON
bodies are modelled by the `Json` inductive (JSON `null` plays the role of
Python `None`); the pending-waiter map, callback map and cancellation set are
modelled as association lists / lists; the background receive loop is
modelled as a fold over the list of events read from the stream.
-/

mutual
/-- JSON values as produced by `json.loads`.  `Json.null` models Python
`None` (which is what `json.loads` returns for a JSON `null`). -/
inductive Json where
  | null : Json
  | bool (b : Bool) : Json
  | num (n : Int) : Json
  | str (s : String) : Json
  | arr (xs : JsonList) : Json
  | obj (fields : JsonFields) : Json
  deriving DecidableEq, Repr

/-- A JSON array's elements. -/
inductive JsonList where
  | nil : JsonList
  | cons (hd : Json) (tl : JsonList) : JsonList
  deriving DecidableEq, Repr

/-- A JSON object's fields, in insertion order (Python dicts preserve it). -/
inductive JsonFields where
  | nil : JsonFields
  | cons (k : String) (v : Json) (tl : JsonFields) : JsonFields
  deriving DecidableEq, Repr
end

namespace JsonFields

/-- First field named `k`, as Python dict lookup (keys are unique in a dict,
so first match is the match). -/
def lookup : JsonFields → String → Option Json
  | .nil, _ => none
  | .cons k v tl, key => if k = key then some v else tl.lookup key

/-- Whether the field list is empty (Python dict truthiness). -/
def isEmpty : JsonFields → Bool
  | .nil => true
  | .cons _ _ _ => false

end JsonFields

namespace JsonList

/-- Whether the array is empty (Python list truthiness). -/
def isEmpty : JsonList → Bool
  | .nil => true
  | .cons _ _ => false

end JsonList

namespace Json

/-- `payload.get(k)` on a parsed JSON object: the first field named `k`,
`none` when the key is absent or the value is not an object. -/
def get? : Json → String → Option Json
  | .obj fields, k => fields.lookup k
  | _, _ => none

/-- `payload.get(k)` with Python's `None` default folded in:
absent keys read as `null` (= Python `None`). -/
def getD (j : Json) (k : String) : Json :=
  (j.get? k).getD .null

/-- `k in payload` on a parsed JSON object (Python `in` on a dict). -/
def hasField (j : Json) (k : String) : Bool :=
  (j.get? k).isSome

/-- Python truthiness of a parsed JSON value: `None`, `False`, `0`, `""`,
`[]` and `{}` are falsy, everything else truthy. -/
def truthy : Json → Bool
  | .null => false
  | .bool b => b
  | .num n => n != 0
  | .str s => s != ""
  | .arr xs => ! xs.isEmpty
  | .obj fields => ! fields.isEmpty

end Json

/-! ## URL resolution (`_resolve_post_url`)

The source calls `urllib.parse.urlparse` and `urljoin`; the two helpers
below model those library calls for the URL shapes this transport meets
(`scheme://netloc/...` stream URLs and path references). -/

/-- Split a character list at the first occurrence of `sep`:
`breakOnSep sep l = some (before, after)` with
`l = before ++ sep ++ after`, `none` when `sep` does not occur. -/
def breakOnSep (sep : List Char) : List Char → Option (List Char × List Char)
  | [] => if sep.isEmpty then some ([], []) else none
  | c :: tl =>
    if sep.isPrefixOf (c :: tl) then some ([], (c :: tl).drop sep.length)
    else (breakOnSep sep tl).map (fun ba => (c :: ba.1, ba.2))

/-- Python `str.strip()` (no arguments): drop whitespace on both ends. -/
def pyStrip (s : String) : String :=
  String.mk
    (((s.data.dropWhile Char.isWhitespace).reverse.dropWhile
      Char.isWhitespace).reverse)

/-- Modelled library call: the `scheme` component of `urlparse(url)` for a
URL of the form `scheme://...`. -/
def urlparseScheme (url : String) : String :=
  match breakOnSep "://".data url.data with
  | none => ""
  | some ba => String.mk ba.1

/-- Modelled library call: the `netloc` component of `urlparse(url)`:
what follows `://` up to the first `/`, `?` or `#`. -/
def urlparseNetloc (url : String) : String :=
  match breakOnSep "://".data url.data with
  | none => ""
  | some ba =>
    String.mk (ba.2.takeWhile (fun c => c != '/' && c != '?' && c != '#'))

/-- Modelled library call: `urljoin(base, ref)` restricted to the reference
shapes the transport meets (absolute-path references, scheme-relative and
absolute URLs, plain relative paths against an origin-only base). -/
def urljoinModel (base ref : String) : String :=
  if ref = "" then base
  else if "//".data.isPrefixOf ref.data then
    urlparseScheme base ++ ":" ++ ref
  else if "/".data.isPrefixOf ref.data then
    urlparseScheme base ++ "://" ++ urlparseNetloc base ++ ref
  else if (breakOnSep "://".data ref.data).isSome then ref
  else urlparseScheme base ++ "://" ++ urlparseNetloc base ++ "/" ++ ref

/-- `MCPTransport._resolve_post_url`: combine the SSE URL's origin with the
endpoint path announced by the handshake event. -/
def resolve_post_url (sseUrl : String) (endpointPath : String) : String :=
  let origin := urlparseScheme sseUrl ++ "://" ++ urlparseNetloc sseUrl
  urljoinModel origin endpointPath

/-! ## Transport state -/

/-- One entry of `MCPTransport._pending`: the Python dict
`{"event": threading.Event(), "result": None, "error": None}`.
`eventSet` is the state of the `threading.Event`; `Json.null` stands for
Python `None` in `result` and `error`. -/
structure Waiter where
  eventSet : Bool
  result : Json
  error : Json
  deriving DecidableEq, Repr

/-- A freshly created waiter (`_enqueue_and_wait` line constructing it). -/
def Waiter.fresh : Waiter := ⟨false, .null, .null⟩

/-- The `_pending` dict, keyed by the Python value used as `rpc_id`
(always a string through the public API, but the dict itself is not
restricted). -/
abbrev PendingMap := List (Json × Waiter)

/-- Dict lookup `self._pending.get(rpc_id)`. -/
def pendingLookup : PendingMap → Json → Option Waiter
  | [], _ => none
  | (k', w) :: tl, k => if k' = k then some w else pendingLookup tl k

/-- In-place mutation of the waiter dict held under an existing key
(`waiter["error"] = ...` etc. mutate the object the map points to). -/
def pendingReplace : PendingMap → Json → Waiter → PendingMap
  | [], _, _ => []
  | (k', w') :: tl, k, w =>
    if k' = k then (k', w) :: tl else (k', w') :: pendingReplace tl k w

/-- Dict deletion `self._pending.pop(rpc_id, None)`. -/
def pendingErase : PendingMap → Json → PendingMap
  | [], _ => []
  | (k', w) :: tl, k =>
    if k' = k then pendingErase tl k else (k', w) :: pendingErase tl k

/-- Dict assignment `self._pending[rpc_id] = waiter` (overwrite if present,
append otherwise — Python dicts keep insertion order). -/
def pendingInsert (p : PendingMap) (k : Json) (w : Waiter) : PendingMap :=
  if (pendingLookup p k).isSome then pendingReplace p k w else p ++ [(k, w)]

/-- Dict assignment on `_callbacks` (`on_message`). Callbacks are abstracted
to numeric identifiers; their behaviour is supplied separately (see
`dispatchEvent`'s `raises` oracle). -/
def cbInsert (cbs : List (String × Nat)) (k : String) (v : Nat) :
    List (String × Nat) :=
  if (cbs.lookup k).isSome then
    cbs.map (fun kc => if kc.1 = k then (k, v) else kc)
  else cbs ++ [(k, v)]

/-- Constructor configuration: the stream URL and the fallback POST URL. -/
structure Config where
  sseUrl : String
  postUrl : String
  deriving DecidableEq, Repr

/-- The mutable fields of an `MCPTransport` instance (those the claims are
about).  `lastEvent` stores `(ev.event, ev.data)`. -/
structure TransportState where
  connected : Bool
  ready : Bool
  resolvedPostUrl : Option String
  lastEvent : Option (String × String)
  pending : PendingMap
  callbacks : List (String × Nat)
  canceled : List String
  deriving DecidableEq, Repr

/-- The state set up by `__init__`. -/
def initState : TransportState :=
  { connected := false, ready := false, resolvedPostUrl := none,
    lastEvent := none, pending := [], callbacks := [], canceled := [] }

/-- One event read from the SSE stream.  `dataJson` is the result of
`json.loads(dataRaw)` (`none` when parsing raises). -/
structure SseEvent where
  name : String
  dataRaw : String
  dataJson : Option Json
  deriving DecidableEq, Repr

/-- Record of one callback invocation performed by the receive loop:
which callback, with which payload, and whether the call raised
(the loop swallows the exception either way). -/
structure Invocation where
  cb : Nat
  payload : Json
  raised : Bool
  deriving DecidableEq, Repr

def SSE_EVENT_ENDPOINT : String := "endpoint"
def SSE_EVENT_MESSAGE : String := "message"
def SSE_EVENT_PROGRESS : String := "progress"

/-! ## The receive loop's event dispatch (`connect_sse._run`, lines 69–108) -/

/-- The cancellation test `if rpc_id and rpc_id in self._canceled` membership
half: `_canceled` is a `set[str]`, so only string ids can be members. -/
def canceledHit (canceled : List String) : Json → Bool
  | .str s => canceled.contains s
  | _ => false

/-- `self._callbacks.get(rpc_id)`: `_callbacks` is keyed by `str`, so only
a string id can match. -/
def callbackLookup (callbacks : List (String × Nat)) : Json → Option Nat
  | .str s => callbacks.lookup s
  | _ => none

/-- Lines 90–95: populate the waiter from the payload and set its event.
`"error" in payload` picks the error branch; otherwise the result is
`payload.get("result") or payload` (Python `or`: the whole payload when
the `result` value is absent **or falsy**). -/
def waiterDeliver (w : Waiter) (payload : Json) : Waiter :=
  if payload.hasField "error" then
    { w with error := payload.getD "error", eventSet := true }
  else
    let r := payload.getD "result"
    { w with result := if r.truthy then r else payload, eventSet := true }

/-- One iteration of the receive loop body (lines 73–108) for one event.
`raises` tells whether a given callback raises on a given payload; the
loop catches the exception (`try: cb(payload) except Exception: pass`), so
it is recorded in the returned `Invocation` but cannot influence the
state.  Returns the new state and the callbacks invoked. -/
def dispatchEvent (cfg : Config) (raises : Nat → Json → Bool)
    (s : TransportState) (ev : SseEvent) : TransportState × List Invocation :=
  if ev.name = SSE_EVENT_ENDPOINT ∧ ev.dataRaw ≠ "" then
    ({ s with resolvedPostUrl := some (resolve_post_url cfg.sseUrl (pyStrip ev.dataRaw)),
              ready := true,
              lastEvent := some (ev.name, ev.dataRaw) }, [])
  else if (ev.name = SSE_EVENT_MESSAGE ∨ ev.name = SSE_EVENT_PROGRESS) ∧ ev.dataRaw ≠ "" then
    match ev.dataJson with
    | none =>
      ({ s with lastEvent := some (ev.name, ev.dataRaw) }, [])
    | some payload =>
      let rpcId := payload.getD "id"
      if rpcId.truthy ∧ canceledHit s.canceled rpcId then
        (s, [])
      else
        let pending' :=
          match pendingLookup s.pending rpcId with
          | none => s.pending
          | some w => pendingReplace s.pending rpcId (waiterDeliver w payload)
        let invoked :=
          match callbackLookup s.callbacks rpcId with
          | none => []
          | some cb => [⟨cb, payload, raises cb payload⟩]
        ({ s with pending := pending', lastEvent := some (ev.name, ev.dataRaw) },
         invoked)
  else
    ({ s with lastEvent := some (ev.name, ev.dataRaw) }, [])

/-- The receive loop over the events read from the stream (without the
final `finally` teardown), accumulating the callback invocations. -/
def loopEvents (cfg : Config) (raises : Nat → Json → Bool) :
    TransportState → List SseEvent → TransportState × List Invocation
  | s, [] => (s, [])
  | s, ev :: rest =>
    let (s', inv) := dispatchEvent cfg raises s ev
    let (s'', invs) := loopEvents cfg raises s' rest
    (s'', inv ++ invs)

/-! ## Teardown (`_run`'s `finally`, lines 109–118) and `disconnect_sse` -/

/-- The uniform error written into every pending waiter on teardown:
`{"code": -1, "message": "SSE disconnected"}`. -/
def disconnectError : Json :=
  .obj (.cons "code" (.num (-1)) (.cons "message" (.str "SSE disconnected") .nil))

/-- The release loop of the `finally` block: every pending entry gets the
disconnect error and its event set (each entry visited exactly once). -/
def releaseAll (p : PendingMap) : PendingMap :=
  p.map (fun kw => (kw.1, { kw.2 with error := disconnectError, eventSet := true }))

/-- The `finally` block: reset connection state, release every pending
waiter, clear the map.  Returns the new state and the released entries. -/
def teardown (s : TransportState) : TransportState × PendingMap :=
  ({ s with connected := false, ready := false, resolvedPostUrl := none,
            pending := [] },
   releaseAll s.pending)

/-- The whole `_run` body once the stream is open: mark connected, process
the stream's events, then run the `finally` teardown.  Returns the final
state, the callback invocations, and the waiters released at teardown. -/
def runLoop (cfg : Config) (raises : Nat → Json → Bool)
    (s : TransportState) (evs : List SseEvent) :
    TransportState × List Invocation × PendingMap :=
  let (s1, invs) := loopEvents cfg raises { s with connected := true } evs
  let (s2, released) := teardown s1
  (s2, invs, released)

/-- `connect_sse` up to starting the thread: no-op when already connected,
otherwise clear readiness and the resolved endpoint. -/
def connectStart (s : TransportState) : TransportState :=
  if s.connected then s
  else { s with ready := false, resolvedPostUrl := none }

/-- The `self._connected = True` executed once the stream is open. -/
def connectOpen (s : TransportState) : TransportState :=
  { s with connected := true }

/-- `disconnect_sse`: the stop signal makes the loop exit, so its `finally`
teardown runs (releasing the waiters); `disconnect_sse` then resets the
connection fields itself.  Returns the new state and the released
entries. -/
def disconnect_sse (s : TransportState) : TransportState × PendingMap :=
  let (s1, released) := teardown s
  ({ s1 with connected := false, ready := false, resolvedPostUrl := none },
   released)

/-- `is_connected`. -/
def is_connected (s : TransportState) : Bool := s.connected

/-- `is_ready`: `self._ready and bool(self._resolved_post_url)` — note
`bool` is false for `None` and for the empty string. -/
def is_ready (s : TransportState) : Bool :=
  s.ready && (match s.resolvedPostUrl with
              | some u => u != ""
              | none => false)

/-- `cancel(request_id)`: add to the `_canceled` set. -/
def cancel (s : TransportState) (requestId : String) : TransportState :=
  { s with canceled :=
      if s.canceled.contains requestId then s.canceled
      else s.canceled ++ [requestId] }

/-- `on_message(request_id, callback)`: register/overwrite the callback. -/
def on_message (s : TransportState) (requestId : String) (cb : Nat) :
    TransportState :=
  { s with callbacks := cbInsert s.callbacks requestId cb }

/-- `off_message(request_id)`: `self._callbacks.pop(request_id, None)`. -/
def off_message (s : TransportState) (requestId : String) : TransportState :=
  { s with callbacks := s.callbacks.filter (fun kc => kc.1 != requestId) }

/-! ## The synchronous facade (`_enqueue_and_wait`, `call_tool`)

The wait on the waiter's `threading.Event` runs concurrently with the
receive loop, which may mutate the pending map (other callers' inserts and
pops, the teardown's clear) and the waiter object itself.  Those effects
are abstracted by the `during` map transformer and by `observed`, the state
of this call's waiter dict when the wait returns: `observed.eventSet` is
the boolean returned by `waiter["event"].wait(...)`. -/

/-- `rpc_id = payload.get("id") or str(uuid.uuid4())`: the payload's id if
truthy, else the freshly generated uuid string. -/
def computeRpcId (payload : Json) (uuid : String) : Json :=
  let pid := payload.getD "id"
  if pid.truthy then pid else .str uuid

/-- The timeout error returned by `_enqueue_and_wait`:
`{"code": -2, "message": "timeout waiting SSE message", "http_status": ...}`
with `http_status` from the POST response (`getattr(res, "status_code",
None)`, so `Json.null` when unavailable). -/
def timeoutErrorJson (httpStatus : Json) : Json :=
  .obj (.cons "code" (.num (-2))
    (.cons "message" (.str "timeout waiting SSE message")
      (.cons "http_status" httpStatus .nil)))

/-- `_enqueue_and_wait` (lines 157–176): register a fresh waiter under the
request id, POST (its HTTP status abstracted as `httpStatus`), wait, pop
the entry, and return `(result, error)` — `Json.null` standing for Python
`None` in the returned pair.  Also returns the final pending map. -/
def enqueue_and_wait (pending : PendingMap) (payload : Json) (uuid : String)
    (during : PendingMap → PendingMap) (observed : Waiter) (httpStatus : Json) :
    (Json × Json) × PendingMap :=
  let rpcId := computeRpcId payload uuid
  let p1 := pendingInsert pending rpcId Waiter.fresh
  let ok := observed.eventSet
  let p2 := pendingErase (during p1) rpcId
  if ok = false then
    ((.null, timeoutErrorJson httpStatus), p2)
  else if observed.error ≠ .null then
    ((.null, observed.error), p2)
  else
    ((observed.result, .null), p2)

/-- `call_tool(name, arguments, timeout_sec)`: build the JSON-RPC payload
(without an `"id"`, so `_enqueue_and_wait` generates one) and delegate. -/
def call_tool (pending : PendingMap) (name : String) (arguments : Json)
    (uuid : String) (during : PendingMap → PendingMap) (observed : Waiter)
    (httpStatus : Json) : (Json × Json) × PendingMap :=
  let payload : Json :=
    .obj (.cons "jsonrpc" (.str "2.0")
      (.cons "method" (.str "tools/call")
        (.cons "params"
          (.obj (.cons "name" (.str name)
            (.cons "arguments" arguments .nil))) .nil)))
  enqueue_and_wait pending payload uuid during observed httpStatus

/-! ## Reachable states

Every mutation of a `TransportState` performed anywhere in the class is one
of the steps below; `Reachable` closes `initState` under them. -/

/-- One state mutation performed by some method of the class. -/
inductive Step (cfg : Config) : TransportState → TransportState → Prop where
  | connectStartStep (s : TransportState) : Step cfg s (connectStart s)
  | connectOpenStep (s : TransportState) : Step cfg s (connectOpen s)
  | dispatchStep (s : TransportState) (raises : Nat → Json → Bool)
      (ev : SseEvent) : Step cfg s (dispatchEvent cfg raises s ev).1
  | teardownStep (s : TransportState) : Step cfg s (teardown s).1
  | disconnectStep (s : TransportState) : Step cfg s (disconnect_sse s).1
  | cancelStep (s : TransportState) (rid : String) : Step cfg s (cancel s rid)
  | onMessageStep (s : TransportState) (rid : String) (cb : Nat) :
      Step cfg s (on_message s rid cb)
  | offMessageStep (s : TransportState) (rid : String) :
      Step cfg s (off_message s rid)
  | enqueueStep (s : TransportState) (rpcId : Json) :
      Step cfg s { s with pending := pendingInsert s.pending rpcId Waiter.fresh }
  | popStep (s : TransportState) (rpcId : Json) :
      Step cfg s { s with pending := pendingErase s.pending rpcId }

/-- States reachable from `__init__` through the class's methods. -/
inductive Reachable (cfg : Config) : TransportState → Prop where
  | init : Reachable cfg initState
  | step {s s' : TransportState} : Reachable cfg s → Step cfg s s' →
      Reachable cfg s'

/-! ## Helper lemmas on the map operations -/

/-- After a dict `pop`, the key is gone. -/
theorem pendingLookup_erase (p : PendingMap) (k : Json) :
    pendingLookup (pendingErase p k) k = none := by
  induction p with
  | nil => rfl
  | cons hd tl ih =>
    obtain ⟨k', w⟩ := hd
    by_cases h : k' = k <;> simp [pendingErase, pendingLookup, h, ih]

/-- Mutating the waiter stored under a present key is visible to lookup. -/
theorem pendingLookup_replace (p : PendingMap) (k : Json) (w w' : Waiter)
    (h : pendingLookup p k = some w) :
    pendingLookup (pendingReplace p k w') k = some w' := by
  induction p with
  | nil => simp [pendingLookup] at h
  | cons hd tl ih =>
    obtain ⟨k'', w''⟩ := hd
    by_cases he : k'' = k
    · simp [pendingReplace, pendingLookup, he]
    · simp only [pendingLookup, pendingReplace, if_neg he] at h ⊢
      exact ih h

/-- A falsy id can never hit a map whose keys are all truthy. -/
theorem pendingLookup_falsy (p : PendingMap) (k : Json)
    (hk : k.truthy = false) (hwf : ∀ kw ∈ p, (kw.1).truthy = true) :
    pendingLookup p k = none := by
  induction p with
  | nil => rfl
  | cons hd tl ih =>
    obtain ⟨k', w⟩ := hd
    have h1 : k'.truthy = true := hwf (k', w) (by simp)
    have hne : k' ≠ k := by
      intro he; rw [he, hk] at h1; cases h1
    simp only [pendingLookup, if_neg hne]
    exact ih (fun kw hm => hwf kw (List.mem_cons_of_mem _ hm))

/-- Every waiter released by the teardown loop carries the disconnect error
and has its event set. -/
theorem releaseAll_forall (p : PendingMap) :
    (releaseAll p).Forall
      (fun e => e.2.error = disconnectError ∧ e.2.eventSet = true) := by
  induction p with
  | nil => simp [releaseAll, List.Forall]
  | cons hd tl ih => simpa [releaseAll, List.Forall] using ih

/-- `_enqueue_and_wait` performs the same final map operation — pop the
request id — on every return path. -/
theorem enqueue_and_wait_snd (pending : PendingMap) (payload : Json)
    (uuid : String) (during : PendingMap → PendingMap) (observed : Waiter)
    (httpStatus : Json) :
    (enqueue_and_wait pending payload uuid during observed httpStatus).2 =
      pendingErase
        (during (pendingInsert pending (computeRpcId payload uuid) Waiter.fresh))
        (computeRpcId payload uuid) := by
  unfold enqueue_and_wait
  dsimp only
  split
  · rfl
  · split <;> rfl

/-! ## Claim theorems -/

/-- Claim C2: every invocation of the synchronous call facade
(`call_tool` / `_enqueue_and_wait`), whatever its outcome — matching event
(`observed.eventSet = true` with a result or a remote error) or timeout
(`observed.eventSet = false`) — has removed the Pending Request Entry for
its request id from the pending map by the time it returns, whatever the
receive loop did to the map in the meantime (`during`). -/
theorem sync_call_removes_pending_entry (pending : PendingMap)
    (payload : Json) (uuid toolName : String) (arguments : Json)
    (during : PendingMap → PendingMap) (observed : Waiter)
    (httpStatus : Json) :
    pendingLookup
        (enqueue_and_wait pending payload uuid during observed httpStatus).2
        (computeRpcId payload uuid) = none ∧
    pendingLookup
        (call_tool pending toolName arguments uuid during observed httpStatus).2
        (.str uuid) = none := by
  constructor
  · rw [enqueue_and_wait_snd]
    exact pendingLookup_erase _ _
  · show pendingLookup (enqueue_and_wait pending _ uuid during observed httpStatus).2
        (.str uuid) = none
    rw [enqueue_and_wait_snd]
    have hid : computeRpcId
        (.obj (.cons "jsonrpc" (.str "2.0")
          (.cons "method" (.str "tools/call")
            (.cons "params"
              (.obj (.cons "name" (.str toolName)
                (.cons "arguments" arguments .nil))) .nil)))) uuid =
        .str uuid := rfl
    rw [hid]
    exact pendingLookup_erase _ _

/-- Claim C5: when the waiter's event is never set within the timeout, the
synchronous call returns the pair `(None, timeout-error)`, and the timeout
error carries the HTTP status of the POST submission in its
`"http_status"` field. -/
theorem sync_call_timeout_error (pending : PendingMap) (payload : Json)
    (uuid : String) (during : PendingMap → PendingMap) (observed : Waiter)
    (httpStatus : Json) (h : observed.eventSet = false) :
    (enqueue_and_wait pending payload uuid during observed httpStatus).1 =
      (.null, timeoutErrorJson httpStatus) ∧
    (timeoutErrorJson httpStatus).get? "http_status" = some httpStatus := by
  constructor
  · unfold enqueue_and_wait
    dsimp only
    rw [if_pos h]
  · rfl

/-- Witness for C5 at a concrete input: a call whose waiter is never
released times out with the `http_status` of the 202 submission. -/
theorem sync_call_timeout_error_witness :
    (enqueue_and_wait [] (.obj .nil) "req-1" id ⟨false, .null, .null⟩
        (.num 202)).1 = (.null, timeoutErrorJson (.num 202)) ∧
    (timeoutErrorJson (.num 202)).get? "http_status" = some (.num 202) :=
  sync_call_timeout_error [] (.obj .nil) "req-1" id ⟨false, .null, .null⟩
    (.num 202) rfl

/-- Claim C6: with stream URL `http://host:3000/sse`, a handshake event
whose body is `/messages?sessionId=abc` resolves the submission endpoint to
`http://host:3000/messages?sessionId=abc` and makes `is_ready` true. -/
theorem endpoint_resolution_scenario :
    resolve_post_url "http://host:3000/sse" "/messages?sessionId=abc" =
      "http://host:3000/messages?sessionId=abc" ∧
    (dispatchEvent ⟨"http://host:3000/sse", "http://host:3000/fallback"⟩
        (fun _ _ => false) (connectOpen (connectStart initState))
        ⟨SSE_EVENT_ENDPOINT, "/messages?sessionId=abc", none⟩).1.resolvedPostUrl =
      some "http://host:3000/messages?sessionId=abc" ∧
    is_ready (dispatchEvent ⟨"http://host:3000/sse", "http://host:3000/fallback"⟩
        (fun _ _ => false) (connectOpen (connectStart initState))
        ⟨SSE_EVENT_ENDPOINT, "/messages?sessionId=abc", none⟩).1 = true := by
  refine ⟨by decide, by decide, by decide⟩

/-- Claim C3: `disconnect_sse` (via the loop's `finally`) releases every one
of the N pending waiters exactly once with the "SSE disconnected" error,
empties the pending map, and resets `connected`, `ready` and the resolved
endpoint; the same teardown runs when the receive loop exits on its own
(`runLoop` ends in the `finally` block). -/
theorem disconnect_releases_all_pending (s s0 : TransportState)
    (cfg : Config) (raises : Nat → Json → Bool) (evs : List SseEvent) :
    ((disconnect_sse s).2).length = s.pending.length ∧
    ((disconnect_sse s).2).map Prod.fst = s.pending.map Prod.fst ∧
    ((disconnect_sse s).2).Forall
      (fun e => e.2.error = disconnectError ∧ e.2.eventSet = true) ∧
    (disconnect_sse s).1.pending = [] ∧
    (disconnect_sse s).1.connected = false ∧
    (disconnect_sse s).1.ready = false ∧
    (disconnect_sse s).1.resolvedPostUrl = none ∧
    (runLoop cfg raises s0 evs).1.pending = [] ∧
    (runLoop cfg raises s0 evs).1.connected = false ∧
    (runLoop cfg raises s0 evs).1.ready = false ∧
    (runLoop cfg raises s0 evs).1.resolvedPostUrl = none ∧
    ((runLoop cfg raises s0 evs).2.2).Forall
      (fun e => e.2.error = disconnectError ∧ e.2.eventSet = true) := by
  refine ⟨?_, ?_, ?_, rfl, rfl, rfl, rfl, ?_, ?_, ?_, ?_, ?_⟩
  · simp [disconnect_sse, teardown, releaseAll]
  · simp [disconnect_sse, teardown, releaseAll]
  · exact releaseAll_forall s.pending
  · simp [runLoop, teardown]
  · simp [runLoop, teardown]
  · simp [runLoop, teardown]
  · simp [runLoop, teardown]
  · simpa [runLoop, teardown] using
      releaseAll_forall (loopEvents cfg raises { s0 with connected := true } evs).1.pending

/-- Dispatching one event preserves `ready → endpoint resolved`: the only
branch that touches the two fields (the handshake branch) writes the
resolved URL and sets `ready` together. -/
theorem dispatch_preserves_ready_inv (cfg : Config)
    (raises : Nat → Json → Bool) (s : TransportState) (ev : SseEvent)
    (h : (! s.ready || s.resolvedPostUrl.isSome) = true) :
    (! (dispatchEvent cfg raises s ev).1.ready ||
      (dispatchEvent cfg raises s ev).1.resolvedPostUrl.isSome) = true := by
  unfold dispatchEvent
  split
  · simp
  · split
    · cases hj : ev.dataJson with
      | none => simpa using h
      | some payload =>
        dsimp only
        split
        · exact h
        · simpa using h
    · simpa using h

/-- Every state mutation performed by the class preserves
`ready → endpoint resolved`. -/
theorem step_preserves_ready_inv (cfg : Config) {s s' : TransportState}
    (hs : Step cfg s s')
    (h : (! s.ready || s.resolvedPostUrl.isSome) = true) :
    (! s'.ready || s'.resolvedPostUrl.isSome) = true := by
  cases hs with
  | connectStartStep =>
    unfold connectStart
    split
    · exact h
    · simp
  | connectOpenStep => simpa [connectOpen] using h
  | dispatchStep raises ev => exact dispatch_preserves_ready_inv cfg raises s ev h
  | teardownStep => simp [teardown]
  | disconnectStep => simp [disconnect_sse, teardown]
  | cancelStep rid => simpa [cancel] using h
  | onMessageStep rid cb => simpa [on_message] using h
  | offMessageStep rid => simpa [off_message] using h
  | enqueueStep rpcId => simpa using h
  | popStep rpcId => simpa using h

/-- Claim C7: in every reachable state, `ready = true` implies the resolved
endpoint is present (first disjunct-free boolean), and `is_ready` reports
true only when `ready` holds and the endpoint is present (second boolean);
every operation of the class preserves this (`Step` covers them all). -/
theorem reachable_ready_implies_endpoint (cfg : Config)
    (s : TransportState) (h : Reachable cfg s) :
    ((! s.ready || s.resolvedPostUrl.isSome) &&
     (! is_ready s || (s.ready && s.resolvedPostUrl.isSome))) = true := by
  have h1 : (! s.ready || s.resolvedPostUrl.isSome) = true := by
    induction h with
    | init => rfl
    | step hr hstep ih => exact step_preserves_ready_inv cfg hstep ih
  have h2 : (! is_ready s || (s.ready && s.resolvedPostUrl.isSome)) = true := by
    unfold is_ready
    cases hready : s.ready <;> cases hres : s.resolvedPostUrl <;> simp
  rw [h1, h2]
  rfl

/-- Witness for C7 at a concrete reachable state: after `connect_sse`
opens the stream and the handshake event is dispatched, the invariant and
the `is_ready` characterisation hold (non-vacuously: `ready` is true
there). -/
theorem reachable_ready_implies_endpoint_witness :
    ((! (dispatchEvent ⟨"http://h:1/sse", "http://h:1/msg"⟩ (fun _ _ => false)
          (connectOpen (connectStart initState))
          ⟨SSE_EVENT_ENDPOINT, "/m?s=1", none⟩).1.ready ||
        (dispatchEvent ⟨"http://h:1/sse", "http://h:1/msg"⟩ (fun _ _ => false)
          (connectOpen (connectStart initState))
          ⟨SSE_EVENT_ENDPOINT, "/m?s=1", none⟩).1.resolvedPostUrl.isSome) &&
     (! is_ready (dispatchEvent ⟨"http://h:1/sse", "http://h:1/msg"⟩
          (fun _ _ => false) (connectOpen (connectStart initState))
          ⟨SSE_EVENT_ENDPOINT, "/m?s=1", none⟩).1 ||
       ((dispatchEvent ⟨"http://h:1/sse", "http://h:1/msg"⟩ (fun _ _ => false)
          (connectOpen (connectStart initState))
          ⟨SSE_EVENT_ENDPOINT, "/m?s=1", none⟩).1.ready &&
        (dispatchEvent ⟨"http://h:1/sse", "http://h:1/msg"⟩ (fun _ _ => false)
          (connectOpen (connectStart initState))
          ⟨SSE_EVENT_ENDPOINT, "/m?s=1", none⟩).1.resolvedPostUrl.isSome))) =
      true :=
  reachable_ready_implies_endpoint ⟨"http://h:1/sse", "http://h:1/msg"⟩ _
    (Reachable.step
      (Reachable.step
        (Reachable.step Reachable.init (Step.connectStartStep initState))
        (Step.connectOpenStep (connectStart initState)))
      (Step.dispatchStep (connectOpen (connectStart initState))
        (fun _ _ => false) ⟨SSE_EVENT_ENDPOINT, "/m?s=1", none⟩))

/-- Counterexample to C1 as stated: the payload
`{"id": "a", "result": null}` has a `"result"` field, yet the waiter's
result is populated with the whole payload (Python
`payload.get("result") or payload` falls through on every falsy value),
not with the field's value `null`. -/
theorem dispatch_result_field_ignored_when_falsy :
    (let payload : Json := .obj (.cons "id" (.str "a")
        (.cons "result" .null .nil))
     let s : TransportState :=
       { initState with pending := [(.str "a", Waiter.fresh)] }
     let out := dispatchEvent ⟨"http://h:1/sse", "http://h:1/msg"⟩
        (fun _ _ => false) s
        ⟨SSE_EVENT_MESSAGE, "\x7b\"id\": \"a\", \"result\": null\x7d",
         some payload⟩
     payload.hasField "error" = false ∧
     payload.hasField "result" = true ∧
     pendingLookup out.1.pending (.str "a") = some ⟨true, payload, .null⟩ ∧
     payload.getD "result" = .null ∧
     payload ≠ .null) := by
  decide

/-- Claim C1 (amended): for a dispatched message/progress event with a
pending waiter under the payload's id (and the id not cancelled): a payload
with an `"error"` field populates the waiter's error; otherwise the
waiter's result is populated from the `"result"` field when that field's
value is truthy, and from the whole payload when the field is absent *or
its value is falsy*; the waiter's event is set in all cases. -/
theorem dispatch_waiter_population (cfg : Config)
    (raises : Nat → Json → Bool) (s : TransportState) (ev : SseEvent)
    (payload : Json) (w : Waiter)
    (hname : ev.name = SSE_EVENT_MESSAGE ∨ ev.name = SSE_EVENT_PROGRESS)
    (hraw : ev.dataRaw ≠ "")
    (hjson : ev.dataJson = some payload)
    (hnc : canceledHit s.canceled (payload.getD "id") = false)
    (hw : pendingLookup s.pending (payload.getD "id") = some w) :
    pendingLookup (dispatchEvent cfg raises s ev).1.pending
        (payload.getD "id") =
      some (if payload.hasField "error"
            then { w with error := payload.getD "error", eventSet := true }
            else if (payload.getD "result").truthy
            then { w with result := payload.getD "result", eventSet := true }
            else { w with result := payload, eventSet := true }) := by
  have hne : ¬ (ev.name = SSE_EVENT_ENDPOINT ∧ ev.dataRaw ≠ "") := by
    rcases hname with h | h <;>
      simp [h, SSE_EVENT_ENDPOINT, SSE_EVENT_MESSAGE, SSE_EVENT_PROGRESS]
  unfold dispatchEvent
  rw [if_neg hne, if_pos ⟨hname, hraw⟩, hjson]
  dsimp only
  rw [if_neg (by simp [hnc])]
  dsimp only
  rw [hw]
  dsimp only
  rw [pendingLookup_replace s.pending _ w _ hw]
  have hdel : waiterDeliver w payload =
      (if payload.hasField "error"
       then { w with error := payload.getD "error", eventSet := true }
       else if (payload.getD "result").truthy
       then { w with result := payload.getD "result", eventSet := true }
       else { w with result := payload, eventSet := true }) := by
    unfold waiterDeliver
    by_cases he : payload.hasField "error" = true
    · simp [he]
    · simp only [Bool.not_eq_true] at he
      by_cases hr : (payload.getD "result").truthy = true
      · simp [he, hr]
      · simp only [Bool.not_eq_true] at hr
        simp [he, hr]
  rw [hdel]

/-- Witness for the amended C1 at a concrete input: a payload with a truthy
`"result"` populates the waiter's result from that field. -/
theorem dispatch_waiter_population_witness :
    (let payload : Json := .obj (.cons "id" (.str "b")
        (.cons "result" (.str "ok") .nil))
     let s : TransportState :=
       { initState with pending := [(.str "b", Waiter.fresh)] }
     let ev : SseEvent :=
       ⟨SSE_EVENT_MESSAGE, "\x7b\"id\": \"b\", \"result\": \"ok\"\x7d",
        some payload⟩
     pendingLookup (dispatchEvent ⟨"http://h:1/sse", "http://h:1/msg"⟩
         (fun _ _ => false) s ev).1.pending (payload.getD "id") =
       some
         (if payload.hasField "error"
          then { Waiter.fresh with error := payload.getD "error", eventSet := true }
          else if (payload.getD "result").truthy
          then { Waiter.fresh with result := payload.getD "result", eventSet := true }
          else { Waiter.fresh with result := payload, eventSet := true })) :=
  dispatch_waiter_population ⟨"http://h:1/sse", "http://h:1/msg"⟩
    (fun _ _ => false) _ _ _ Waiter.fresh (Or.inl rfl) (by decide) rfl
    (by decide) (by decide)

/-- Counterexample to C4 as stated: `cancel("")` puts the empty string in
the Cancellation Set, yet an event whose payload id is `""` is still
delivered to the subscriber registered under `""` — the guard
`if rpc_id and rpc_id in self._canceled` skips the membership test for a
falsy id. -/
theorem cancel_filter_empty_id_bypassed :
    (let payload : Json := .obj (.cons "id" (.str "") .nil)
     let s : TransportState :=
       { initState with canceled := [""], callbacks := [("", 0)] }
     let out := dispatchEvent ⟨"http://h:1/sse", "http://h:1/msg"⟩
        (fun _ _ => false) s
        ⟨SSE_EVENT_MESSAGE, "\x7b\"id\": \"\"\x7d", some payload⟩
     ("" ∈ s.canceled) ∧ out.2 = [⟨0, payload, false⟩]) := by
  decide

/-- Claim C4 (amended): for every *non-empty* (truthy) request identifier
in the Cancellation Set before an event carrying it is dispatched, the
event is delivered to neither waiter nor subscriber — the dispatch is a
complete no-op (`continue`): state unchanged (no waiter fields populated,
no event set, not even `lastEvent`), no callback invoked. -/
theorem canceled_id_suppresses_dispatch (cfg : Config)
    (raises : Nat → Json → Bool) (s : TransportState) (ev : SseEvent)
    (payload : Json) (k : String)
    (hname : ev.name = SSE_EVENT_MESSAGE ∨ ev.name = SSE_EVENT_PROGRESS)
    (hraw : ev.dataRaw ≠ "")
    (hjson : ev.dataJson = some payload)
    (hid : payload.getD "id" = .str k)
    (hk : k ≠ "")
    (hmem : k ∈ s.canceled) :
    dispatchEvent cfg raises s ev = (s, []) := by
  have hne : ¬ (ev.name = SSE_EVENT_ENDPOINT ∧ ev.dataRaw ≠ "") := by
    rcases hname with h | h <;>
      simp [h, SSE_EVENT_ENDPOINT, SSE_EVENT_MESSAGE, SSE_EVENT_PROGRESS]
  unfold dispatchEvent
  rw [if_neg hne, if_pos ⟨hname, hraw⟩, hjson]
  dsimp only
  rw [if_pos ⟨by simp [hid, Json.truthy, hk], by simp [hid, canceledHit, hmem]⟩]

/-- Witness for the amended C4 at a concrete input: an event whose id
`"x"` was cancelled is dispatched to no one, even with a pending waiter
and a subscriber registered under `"x"`. -/
theorem canceled_id_suppresses_dispatch_witness :
    (let payload : Json := .obj (.cons "id" (.str "x") .nil)
     let s : TransportState :=
       { initState with canceled := ["x"], pending := [(.str "x", Waiter.fresh)], callbacks := [("x", 5)] }
     dispatchEvent ⟨"http://h:1/sse", "http://h:1/msg"⟩ (fun _ _ => false) s
        ⟨SSE_EVENT_MESSAGE, "\x7b\"id\": \"x\"\x7d", some payload⟩ =
       (s, [])) :=
  canceled_id_suppresses_dispatch ⟨"http://h:1/sse", "http://h:1/msg"⟩
    (fun _ _ => false) _ _ _ "x" (Or.inl rfl) (by decide) rfl (by decide)
    (by decide) (by decide)

/-- Unfolding one iteration of the receive loop: the final state comes from
processing the tail from the dispatched state, and this event's
invocations precede the tail's. -/
theorem loopEvents_cons (cfg : Config) (raises : Nat → Json → Bool)
    (s : TransportState) (ev : SseEvent) (rest : List SseEvent) :
    loopEvents cfg raises s (ev :: rest) =
      ((loopEvents cfg raises (dispatchEvent cfg raises s ev).1 rest).1,
       (dispatchEvent cfg raises s ev).2 ++
         (loopEvents cfg raises (dispatchEvent cfg raises s ev).1 rest).2) := by
  rcases hd : dispatchEvent cfg raises s ev with ⟨s', inv⟩
  rcases hl : loopEvents cfg raises s' rest with ⟨s'', invs⟩
  simp [loopEvents, hd, hl]

/-- Claim C8: a message/progress event whose body is not parseable JSON is
dropped silently — no waiter touched, no callback invoked, only `lastEvent`
recorded — and the receive loop goes on to process the remaining events. -/
theorem malformed_payload_dropped (cfg : Config)
    (raises : Nat → Json → Bool) (s : TransportState) (ev : SseEvent)
    (rest : List SseEvent)
    (hname : ev.name = SSE_EVENT_MESSAGE ∨ ev.name = SSE_EVENT_PROGRESS)
    (hraw : ev.dataRaw ≠ "")
    (hjson : ev.dataJson = none) :
    dispatchEvent cfg raises s ev =
      ({ s with lastEvent := some (ev.name, ev.dataRaw) }, []) ∧
    loopEvents cfg raises s (ev :: rest) =
      loopEvents cfg raises
        { s with lastEvent := some (ev.name, ev.dataRaw) } rest := by
  have hne : ¬ (ev.name = SSE_EVENT_ENDPOINT ∧ ev.dataRaw ≠ "") := by
    rcases hname with h | h <;>
      simp [h, SSE_EVENT_ENDPOINT, SSE_EVENT_MESSAGE, SSE_EVENT_PROGRESS]
  have h1 : dispatchEvent cfg raises s ev =
      ({ s with lastEvent := some (ev.name, ev.dataRaw) }, []) := by
    unfold dispatchEvent
    rw [if_neg hne, if_pos ⟨hname, hraw⟩, hjson]
  refine ⟨h1, ?_⟩
  rw [loopEvents_cons, h1]
  rcases hl : loopEvents cfg raises
      { s with lastEvent := some (ev.name, ev.dataRaw) } rest with ⟨s'', invs⟩
  simp

/-- Witness for C8 at a concrete input: a non-JSON body `oops` on a
`message` event leaves the pending waiter untouched and the loop moves on
to the next event. -/
theorem malformed_payload_dropped_witness :
    (let s : TransportState :=
       { initState with pending := [(.str "a", Waiter.fresh)], callbacks := [("a", 2)] }
     let ev : SseEvent := ⟨SSE_EVENT_MESSAGE, "oops", none⟩
     dispatchEvent ⟨"http://h:1/sse", "http://h:1/msg"⟩ (fun _ _ => false) s ev =
       ({ s with lastEvent := some (ev.name, ev.dataRaw) }, []) ∧
     loopEvents ⟨"http://h:1/sse", "http://h:1/msg"⟩ (fun _ _ => false) s [ev] =
       loopEvents ⟨"http://h:1/sse", "http://h:1/msg"⟩ (fun _ _ => false)
         { s with lastEvent := some (ev.name, ev.dataRaw) } []) :=
  malformed_payload_dropped ⟨"http://h:1/sse", "http://h:1/msg"⟩
    (fun _ _ => false) _ _ [] (Or.inl rfl) (by decide) rfl

/-- Claim C9: an exception raised by a subscriber's callback is caught and
discarded — the post-dispatch state is identical whatever the callback
does (`r` vs `r'`), the invocation is still recorded, the delivery already
made to the waiter for the same event stands, and the loop dispatches the
remaining events. -/
theorem callback_exception_swallowed (cfg : Config)
    (r r' : Nat → Json → Bool) (s : TransportState) (ev : SseEvent)
    (rest : List SseEvent) (payload : Json) (cb : Nat) (w : Waiter)
    (hname : ev.name = SSE_EVENT_MESSAGE ∨ ev.name = SSE_EVENT_PROGRESS)
    (hraw : ev.dataRaw ≠ "")
    (hjson : ev.dataJson = some payload)
    (hnc : canceledHit s.canceled (payload.getD "id") = false)
    (hcb : callbackLookup s.callbacks (payload.getD "id") = some cb)
    (hw : pendingLookup s.pending (payload.getD "id") = some w) :
    (dispatchEvent cfg r s ev).1 = (dispatchEvent cfg r' s ev).1 ∧
    (dispatchEvent cfg r s ev).2 = [⟨cb, payload, r cb payload⟩] ∧
    pendingLookup (dispatchEvent cfg r s ev).1.pending (payload.getD "id") =
      some (waiterDeliver w payload) ∧
    loopEvents cfg r s (ev :: rest) =
      ((loopEvents cfg r (dispatchEvent cfg r s ev).1 rest).1,
       (dispatchEvent cfg r s ev).2 ++
         (loopEvents cfg r (dispatchEvent cfg r s ev).1 rest).2) := by
  have hne : ¬ (ev.name = SSE_EVENT_ENDPOINT ∧ ev.dataRaw ≠ "") := by
    rcases hname with h | h <;>
      simp [h, SSE_EVENT_ENDPOINT, SSE_EVENT_MESSAGE, SSE_EVENT_PROGRESS]
  have key : ∀ rr : Nat → Json → Bool,
      dispatchEvent cfg rr s ev =
        ({ s with
            pending := pendingReplace s.pending (payload.getD "id")
              (waiterDeliver w payload),
            lastEvent := some (ev.name, ev.dataRaw) },
         [⟨cb, payload, rr cb payload⟩]) := by
    intro rr
    unfold dispatchEvent
    rw [if_neg hne, if_pos ⟨hname, hraw⟩, hjson]
    dsimp only
    rw [if_neg (by simp [hnc])]
    rw [hw, hcb]
  refine ⟨?_, ?_, ?_, ?_⟩
  · rw [key r, key r']
  · rw [key r]
  · rw [key r]
    exact pendingLookup_replace s.pending _ w _ hw
  · exact loopEvents_cons cfg r s ev rest

/-- Witness for C9 at a concrete input: a callback that raises
(`fun _ _ => true`) versus one that does not leaves the same state, the
waiter still populated. -/
theorem callback_exception_swallowed_witness :
    (let payload : Json := .obj (.cons "id" (.str "c")
        (.cons "result" (.num 4) .nil))
     let s : TransportState :=
       { initState with pending := [(.str "c", Waiter.fresh)], callbacks := [("c", 9)] }
     let ev : SseEvent :=
       ⟨SSE_EVENT_MESSAGE, "\x7b\"id\": \"c\", \"result\": 4\x7d",
        some payload⟩
     let cfg : Config := ⟨"http://h:1/sse", "http://h:1/msg"⟩
     (dispatchEvent cfg (fun _ _ => true) s ev).1 =
       (dispatchEvent cfg (fun _ _ => false) s ev).1 ∧
     (dispatchEvent cfg (fun _ _ => true) s ev).2 = [⟨9, payload, true⟩] ∧
     pendingLookup (dispatchEvent cfg (fun _ _ => true) s ev).1.pending
         (payload.getD "id") = some (waiterDeliver Waiter.fresh payload) ∧
     loopEvents cfg (fun _ _ => true) s [ev] =
       ((loopEvents cfg (fun _ _ => true)
           (dispatchEvent cfg (fun _ _ => true) s ev).1 []).1,
        (dispatchEvent cfg (fun _ _ => true) s ev).2 ++
          (loopEvents cfg (fun _ _ => true)
            (dispatchEvent cfg (fun _ _ => true) s ev).1 []).2)) :=
  callback_exception_swallowed ⟨"http://h:1/sse", "http://h:1/msg"⟩
    (fun _ _ => true) (fun _ _ => false) _ _ [] _ 9 Waiter.fresh
    (Or.inl rfl) (by decide) rfl (by decide) (by decide) (by decide)

/-- Counterexample to C10 as stated: an event whose parsed body has the
*empty* id `""` IS delivered to a subscriber registered under `""` (the
callback lookup is reached because the cancellation guard only skips the
rest of the body via `continue` for cancelled truthy ids, and
`self._callbacks.get("")` matches). -/
theorem empty_id_subscriber_delivery :
    (let payload : Json := .obj (.cons "id" (.str "") .nil)
     let s : TransportState := { initState with callbacks := [("", 7)] }
     let out := dispatchEvent ⟨"http://h:1/sse", "http://h:1/msg"⟩
        (fun _ _ => false) s
        ⟨SSE_EVENT_MESSAGE, "\x7b\"id\": \"\"\x7d", some payload⟩
     out.2 = [⟨7, payload, false⟩] ∧ out.2 ≠ []) := by
  decide

/-- Claim C10 (amended): a message/progress event whose parsed body has a
falsy id (missing `"id"` field, `null` or empty id) is delivered to no
synchronous waiter (the sync facade only ever registers truthy keys) and —
provided no subscriber was explicitly registered under that falsy
identifier, which is possible only for `""` — to no callback either; it is
still recorded as the last event. -/
theorem falsy_id_no_delivery (cfg : Config) (raises : Nat → Json → Bool)
    (s : TransportState) (ev : SseEvent) (payload : Json)
    (hname : ev.name = SSE_EVENT_MESSAGE ∨ ev.name = SSE_EVENT_PROGRESS)
    (hraw : ev.dataRaw ≠ "")
    (hjson : ev.dataJson = some payload)
    (hid : (payload.getD "id").truthy = false)
    (hwf : ∀ kw ∈ s.pending, (kw.1).truthy = true)
    (hcb : callbackLookup s.callbacks (payload.getD "id") = none) :
    dispatchEvent cfg raises s ev =
      ({ s with lastEvent := some (ev.name, ev.dataRaw) }, []) := by
  have hne : ¬ (ev.name = SSE_EVENT_ENDPOINT ∧ ev.dataRaw ≠ "") := by
    rcases hname with h | h <;>
      simp [h, SSE_EVENT_ENDPOINT, SSE_EVENT_MESSAGE, SSE_EVENT_PROGRESS]
  unfold dispatchEvent
  rw [if_neg hne, if_pos ⟨hname, hraw⟩, hjson]
  dsimp only
  rw [if_neg (by simp [hid])]
  rw [pendingLookup_falsy s.pending _ hid hwf, hcb]

/-- Witness for the amended C10 at a concrete input: a body with no `"id"`
field is delivered to no one (waiter under `"q"` untouched, subscriber
under `"q"` not invoked) but is recorded as the last event. -/
theorem falsy_id_no_delivery_witness :
    (let payload : Json := .obj (.cons "result" (.str "r") .nil)
     let s : TransportState :=
       { initState with pending := [(.str "q", Waiter.fresh)], callbacks := [("q", 1)] }
     let ev : SseEvent :=
       ⟨SSE_EVENT_MESSAGE, "\x7b\"result\": \"r\"\x7d", some payload⟩
     dispatchEvent ⟨"http://h:1/sse", "http://h:1/msg"⟩ (fun _ _ => false)
        s ev = ({ s with lastEvent := some (ev.name, ev.dataRaw) }, [])) :=
  falsy_id_no_delivery ⟨"http://h:1/sse", "http://h:1/msg"⟩
    (fun _ _ => false) _ _ _ (Or.inl rfl) (by decide) rfl (by decide)
    (by decide) (by decide)
